import Mathlib

/-
Verification of the astroplan constraint-evaluation core
(src/astroplan/constraints.py) against its specification.

Modelling conventions:
* An absolute instant is a rational Julian date (astropy `Time.jd`).
* A target is identified by a natural number; the ephemeris services
  consumed from the observer (altitudes, airmasses, separations,
  solar/lunar state) are modelled as rational-valued functions of
  target and instant, as the spec treats them as black boxes.
* Angles are rational degrees, lunar illumination a rational fraction,
  local clock time a rational number of seconds since local midnight
  (datetime.time comparison order coincides with this encoding).
* A numpy 2-D array is a `List (List _)` (rows = targets, cols = times);
  `ValueError`/`TypeError`/`AttributeError` raises become `Except`.
-/

deriving instance DecidableEq for Except

namespace Astroplan

/-- Observability matrices: rows indexed by target, columns by time. -/
abbrev BoolMat := List (List Bool)

/-- Continuous-score matrices (float results of non-boolean constraints). -/
abbrev RatMat := List (List ℚ)

/-- Entry access in a row-major matrix: row `i`, column `j`. -/
def matGet (m : List (List α)) (i j : ℕ) : Option α :=
  (m[i]?).bind (fun row => row[j]?)

/-- Shape predicate for a matrix: `n` rows, each of length `k`. -/
def matShape (m : List (List α)) (n k : ℕ) : Prop :=
  m.length = n ∧ ∀ row ∈ m, row.length = k

/-- Build the (targets × times) grid of a per-(target, time) quantity,
as produced by the ephemeris substrate for the per-target constraints. -/
def gridMap (f : ℕ → ℚ → α) (targets : List ℕ) (times : List ℚ) :
    List (List α) :=
  targets.map (fun g => times.map (fun t => f g t))

/-- `min_best_rescale` of constraints.py, elementwise: linear map sending
`min_val` to 1 and `max_val` to 0; the below-`min_val` assignment is
applied before the above-`max_val` one, exactly as the two masked
assignments in the source. -/
def min_best_rescale (v min_val max_val less_than_min : ℚ) : ℚ :=
  let rescaled := (v - max_val) / (min_val - max_val)
  let rescaled := if v < min_val then less_than_min else rescaled
  if v > max_val then 0 else rescaled

/-- `max_best_rescale` of constraints.py, elementwise: linear map sending
`min_val` to 0 and `max_val` to 1, with the same masked-assignment order
as the source (below set to 0, then above set to `greater_than_max`). -/
def max_best_rescale (v min_val max_val greater_than_max : ℚ) : ℚ :=
  let rescaled := (v - min_val) / (max_val - min_val)
  let rescaled := if v < min_val then 0 else rescaled
  if v > max_val then greater_than_max else rescaled

/-- `AltitudeConstraint.compute_constraint`, boolean mode:
inclusive double-sided bound on the cached alt-az altitude grid.
Limits are modelled in their scalar form. -/
def altitudeCompute (minA maxA : ℚ) (alt : ℕ → ℚ → ℚ)
    (targets : List ℕ) (times : List ℚ) : BoolMat :=
  gridMap (fun g t => decide (minA ≤ alt g t) && decide (alt g t ≤ maxA))
    targets times

/-- `AltitudeConstraint.compute_constraint`, continuous mode
(`boolean_constraint=False`): `max_best_rescale(alt, min, max)` with the
default `greater_than_max=1`. -/
def altitudeComputeFloat (minA maxA : ℚ) (alt : ℕ → ℚ → ℚ)
    (targets : List ℕ) (times : List ℚ) : RatMat :=
  gridMap (fun g t => max_best_rescale (alt g t) minA maxA 1) targets times

/-- `AirmassConstraint.compute_constraint`, boolean mode: one branch per
present/absent combination of the limits, `ValueError` when neither is
given.  `secz` is the cached secant-of-zenith-angle grid. -/
def airmassComputeBool (minA maxA : Option ℚ) (secz : ℕ → ℚ → ℚ)
    (targets : List ℕ) (times : List ℚ) : Except String BoolMat :=
  match minA, maxA with
  | none, some mx =>
      .ok (gridMap (fun g t => decide (secz g t ≤ mx)) targets times)
  | some mi, none =>
      .ok (gridMap (fun g t => decide (mi ≤ secz g t)) targets times)
  | some mi, some mx =>
      .ok (gridMap (fun g t => decide (mi ≤ secz g t) && decide (secz g t ≤ mx))
        targets times)
  | none, none =>
      .error "No max and/or min specified in AirmassConstraint."

/-- `AirmassConstraint.compute_constraint`, continuous mode
(`boolean_constraint=False`): `ValueError` when `max` is unset, otherwise
`min_best_rescale(secz, mi, mx, less_than_min=0)` with `mi` defaulting
to 1 when `min` is unset. -/
def airmassComputeFloat (minA maxA : Option ℚ) (secz : ℕ → ℚ → ℚ)
    (targets : List ℕ) (times : List ℚ) : Except String RatMat :=
  match maxA with
  | none => .error "Cannot have a float AirmassConstraint if max is None"
  | some mx =>
      let mi := minA.getD 1
      .ok (gridMap (fun g t => min_best_rescale (secz g t) mi mx 0)
        targets times)

/-- The broadcast step of `AtNightConstraint._get_solar_altitudes`:
`np.atleast_2d(altitude) + np.zeros((len(targets), 1))` replicates the
per-time solar-altitude row once per target. -/
def solarAltitudesBroadcast (altitude : List ℚ) (ntargets : ℕ) : RatMat :=
  List.replicate ntargets altitude

/-- `AtNightConstraint.compute_constraint`: solar altitude (a per-time
quantity, `sunAlt`) broadcast across targets, then compared inclusively
against `max_solar_altitude`. -/
def atNightCompute (maxSolarAlt : ℚ) (sunAlt : ℚ → ℚ)
    (targets : List ℕ) (times : List ℚ) : BoolMat :=
  (solarAltitudesBroadcast (times.map sunAlt) targets.length).map
    (fun row => row.map (fun a => decide (a ≤ maxSolarAlt)))

/-- `SunSeparationConstraint.compute_constraint`: the per-target list of
per-time Sun–target separations, bounded inclusively on both sides. -/
def sunSeparationCompute (minS maxS : ℚ) (sep : ℕ → ℚ → ℚ)
    (targets : List ℕ) (times : List ℚ) : BoolMat :=
  gridMap (fun g t => decide (minS ≤ sep g t) && decide (sep g t ≤ maxS))
    targets times

/-- `MoonSeparationConstraint.compute_constraint`:
`targets[:, np.newaxis].separation(moon)` gives the (targets × times)
separation grid, bounded inclusively on both sides. -/
def moonSeparationCompute (minS maxS : ℚ) (sep : ℕ → ℚ → ℚ)
    (targets : List ℕ) (times : List ℚ) : BoolMat :=
  gridMap (fun g t => decide (minS ≤ sep g t) && decide (sep g t ≤ maxS))
    targets times

/-- `MoonIlluminationConstraint.__init__`: an unset bound is replaced by
the sentinel -0.5 (min) / 1.5 (max). -/
def moonIlluminationInit (minI maxI : Option ℚ) : ℚ × ℚ :=
  (minI.getD (-(1/2)), maxI.getD (3/2))

/-- `MoonIlluminationConstraint.compute_constraint` for scalar limits.
`moonAlt`/`illum` are the per-time cached lunar altitude and
illumination fraction; `moon_down_mask = moon_alt < 0`.  The branch is
selected by comparing the limits against the sentinels.  The targets
argument is accepted but never used by the source: the `(ntimes,)`
illumination array broadcasts against the `(1,1)` scalar limits to a
single-row `(1, ntimes)` mask. -/
def moonIlluminationCompute (minI maxI : ℚ) (moonAlt illum : ℚ → ℚ)
    (targets : List ℕ) (times : List ℚ) : Except String BoolMat :=
  let _ := targets
  let moonDown := fun t => decide (moonAlt t < 0)
  if minI < 0 ∧ maxI < 3/2 then
    .ok [times.map (fun t => decide (maxI ≥ illum t) || moonDown t)]
  else if maxI > 1 ∧ minI > -(1/2) then
    .ok [times.map (fun t => decide (minI ≤ illum t) && !(moonDown t))]
  else if minI > -(1/2) ∧ maxI < 3/2 then
    .ok [times.map (fun t =>
      (decide (minI ≤ illum t) && decide (illum t ≤ maxI)) && !(moonDown t))]
  else
    .error "No max and/or min specified in MoonSeparationConstraint."

/-- Seconds-of-day value of the `datetime.time(23, 59, 59)` sentinel. -/
def lastSecondOfDay : ℚ := 86399

/-- `LocalTimeConstraint.__init__` for scalar bounds: `ValueError` when
both are unset; an unset min becomes `datetime.time(0, 0, 0)` and an
unset max becomes `datetime.time(23, 59, 59)` (type checks on the
supplied `datetime.time` values are outside the model). -/
def localTimeConstraintInit (minT maxT : Option ℚ) :
    Except String (ℚ × ℚ) :=
  if minT = none ∧ maxT = none then
    .error "You must at least supply either a minimum or a maximum time."
  else
    .ok (minT.getD 0, maxT.getD lastSecondOfDay)

/-- `LocalTimeConstraint.compute_constraint` for scalar bounds over the
local clock times (`localTimes`, seconds of day) of the sampled
instants: where `min < max` the same-day mask `min ≤ t ≤ max` replaces
the straddling mask `t ≥ min or t ≤ max`; the per-time row is then
tiled and reshaped to `(ntargets, ntimes)`. -/
def localTimeCompute (minT maxT : ℚ) (targets : List ℕ)
    (localTimes : List ℚ) : BoolMat :=
  let mask := localTimes.map (fun t =>
    if minT < maxT then decide (minT ≤ t) && decide (t ≤ maxT)
    else decide (t ≥ minT) || decide (t ≤ maxT))
  List.replicate targets.length mask

/-- Julian date of the source's `Time("1950-01-01T00:00:00")` sentinel. -/
def jd1950 : ℚ := 2433282.5

/-- Julian date of the source's `Time("2120-01-01T00:00:00")` sentinel. -/
def jd2120 : ℚ := 2495373.5

/-- Elementwise AND of two same-shaped boolean matrices
(`np.logical_and` on stacked equal-shape arrays). -/
def matAnd (a b : BoolMat) : BoolMat :=
  List.zipWith (fun ra rb => List.zipWith and ra rb) a b

/-- `TimeConstraint.compute_constraint` for scalar bounds: unset bounds
replaced by the 1950/2120 sentinels, strict comparisons on both sides,
each per-time mask tiled and reshaped to `(ntargets, ntimes)` before the
final `np.logical_and`. -/
def timeConstraintCompute (minT maxT : Option ℚ) (targets : List ℕ)
    (times : List ℚ) : BoolMat :=
  let min_time := minT.getD jd1950
  let max_time := maxT.getD jd2120
  let min_mask :=
    List.replicate targets.length (times.map (fun t => decide (min_time < t)))
  let max_mask :=
    List.replicate targets.length (times.map (fun t => decide (t < max_time)))
  matAnd min_mask max_mask

/-- Keys of `observer._altaz_cache`: either `(tuple(times.jd), tuple(targets))`
from `_get_altaz`, or `(tuple(times.jd), 'sun')` from
`AtNightConstraint._get_solar_altitudes` (the two share one dict). -/
inductive AAKey where
  | tgts (jds : List ℚ) (ids : List ℕ)
  | sun (jds : List ℚ)
deriving DecidableEq

/-- Values of `observer._altaz_cache`: `_get_altaz` stores
`dict(times=..., altaz=...)` (a target × time grid), the solar helper
stores `dict(times=..., altitude=...)` (a per-time list). -/
inductive AAVal where
  | altaz (times : List ℚ) (grid : List (List ℚ))
  | altitude (times : List ℚ) (alts : List ℚ)
deriving DecidableEq

/-- Dictionary lookup in the cache association list. -/
def lookupKey (c : List (AAKey × AAVal)) (k : AAKey) : Option AAVal :=
  match c with
  | [] => none
  | (k', v) :: rest => if k' = k then some v else lookupKey rest k

/-- The observer state touched by the constraint core: the mutable
atmospheric pressure, the attached alt-az cache, and a stand-in
(`timezone`) for every other observer field, which the core must leave
untouched. -/
structure Observer where
  pressure : ℚ
  timezone : ℚ
  altaz_cache : List (AAKey × AAVal)
deriving DecidableEq

/-- `_get_altaz` of constraints.py: consult the per-observer cache; on a
miss, optionally force the pressure to zero, call the external
`observer.altaz` (modelled as `altazFn`, which reads the current
pressure and may raise), store the result, and restore the pressure in
a `finally` block on both the success and the raising path. -/
def get_altaz (altazFn : ℚ → List ℚ → List ℕ → Except String (List (List ℚ)))
    (times : List ℚ) (targets : List ℕ) (force_zero_pressure : Bool)
    (observer : Observer) : Except String AAVal × Observer :=
  let aakey := AAKey.tgts times targets
  match lookupKey observer.altaz_cache aakey with
  | some v => (.ok v, observer)
  | none =>
    let observer_old_pressure := observer.pressure
    let obs1 :=
      if force_zero_pressure then { observer with pressure := 0 } else observer
    match altazFn obs1.pressure times targets with
    | .ok grid =>
        let obs2 := { obs1 with
          altaz_cache := (aakey, AAVal.altaz times grid) :: obs1.altaz_cache }
        (.ok (AAVal.altaz times grid),
         if force_zero_pressure then
           { obs2 with pressure := observer_old_pressure }
         else obs2)
    | .error e =>
        (.error e,
         if force_zero_pressure then
           { obs1 with pressure := observer_old_pressure }
         else obs1)

/-- `AtNightConstraint._get_solar_altitudes`: same cache discipline as
`get_altaz` under the `('sun')`-tagged key, guarded by the constraint's
`force_pressure_zero` flag, followed by the explicit broadcast of the
per-time solar altitudes across the target dimension.  A `'sun'` key
always stores an `altitude` payload; an `altaz` payload under that key
would be a `KeyError` in the source, modelled as an error. -/
def get_solar_altitudes (sunAltFn : ℚ → List ℚ → Except String (List ℚ))
    (force_pressure_zero : Bool) (times : List ℚ) (ntargets : ℕ)
    (observer : Observer) : Except String RatMat × Observer :=
  let aakey := AAKey.sun times
  match lookupKey observer.altaz_cache aakey with
  | some (AAVal.altitude _ alts) =>
      (.ok (solarAltitudesBroadcast alts ntargets), observer)
  | some (AAVal.altaz _ _) => (.error "KeyError: altitude", observer)
  | none =>
    let observer_old_pressure := observer.pressure
    let obs1 :=
      if force_pressure_zero then { observer with pressure := 0 } else observer
    match sunAltFn obs1.pressure times with
    | .ok alts =>
        let obs2 := { obs1 with
          altaz_cache := (aakey, AAVal.altitude times alts) :: obs1.altaz_cache }
        (.ok (solarAltitudesBroadcast alts ntargets),
         if force_pressure_zero then
           { obs2 with pressure := observer_old_pressure }
         else obs2)
    | .error e =>
        (.error e,
         if force_pressure_zero then
           { obs1 with pressure := observer_old_pressure }
         else obs1)

/-- A constraint as seen by the aggregate queries: something whose
`__call__` produces an observability matrix from targets and times (the
observer is fixed inside the closure, mirroring dynamic dispatch on the
constraint objects). -/
abbrev ConstraintFn := List ℕ → List ℚ → BoolMat

/-- The `applied_constraints` list built by each aggregate query: one
matrix per constraint. -/
def applyConstraints (constraints : List ConstraintFn)
    (targets : List ℕ) (times : List ℚ) : List BoolMat :=
  constraints.map (fun c => c targets times)

/-- `np.logical_and.reduce` over the list of applied matrices. -/
def logicalAndReduce : List BoolMat → BoolMat
  | [] => []
  | m :: ms => ms.foldl matAnd m

/-- `is_always_observable`: AND-reduce the per-constraint matrices, then
`np.all(..., axis=1)` over the time axis. -/
def is_always_observable (constraints : List ConstraintFn)
    (targets : List ℕ) (times : List ℚ) : List Bool :=
  (logicalAndReduce (applyConstraints constraints targets times)).map
    (fun row => row.all id)

/-- `is_observable`: AND-reduce the per-constraint matrices, then
`np.any(..., axis=1)` over the time axis. -/
def is_observable (constraints : List ConstraintFn)
    (targets : List ℕ) (times : List ℚ) : List Bool :=
  (logicalAndReduce (applyConstraints constraints targets times)).map
    (fun row => row.any id)

/-- A recast limit as stored on a constraint: a column array of shape
`(N, 1)`, modelled by its column of values; `None` stays `None`.
Scalar limits are the `(1, 1)` case, i.e. a one-element column. -/
abbrev LimitVal := List ℚ

/-- `_get_limit_values` of constraints.py: `None` if every instance has
the limit unset; `ValueError` on a mixture of set and unset limits;
`ValueError` if any set limit is non-scalar (shape other than `(1,1)`);
otherwise the list of the scalar values `val[0, 0]`. -/
def get_limit_values (vals : List (Option LimitVal)) :
    Except String (Option (List ℚ)) :=
  if vals.any (fun v => v = none) then
    if vals.all (fun v => v = none) then .ok none
    else .error
      "Cannot vectorize constraints with a mixture of scalar and NoneType limits"
  else
    if vals.all (fun v => (v.getD []).length = 1) then
      .ok (some (vals.map (fun v => (v.getD []).headD 0)))
    else .error "Not all limits have scalar values"

/-- Python exceptions raised by `TimeConstraint.vectorize`. -/
inductive PyErr where
  | valueError (msg : String)
  | attributeError (msg : String)
deriving DecidableEq

/-- A `TimeConstraint` limit: `astropy.time.Time`, either scalar or an
array of instants (TimeConstraint limits are not recast to columns). -/
abbrev TimeLimit := ℚ ⊕ List ℚ

/-- One element of the `[not val.isscalar for val in ...]` comprehension
in `TimeConstraint.vectorize`: evaluating `.isscalar` on a `None` limit
raises `AttributeError`. -/
def notIsScalar : Option TimeLimit → Except PyErr Bool
  | none => .error (.attributeError "NoneType object has no attribute isscalar")
  | some (.inl _) => .ok false
  | some (.inr _) => .ok true

/-- `np.any([not val.isscalar for val in vals])`: the comprehension is
evaluated left to right in full before the disjunction. -/
def anyNotScalar : List (Option TimeLimit) → Except PyErr Bool
  | [] => .ok false
  | v :: vs =>
    match notIsScalar v with
    | .error e => .error e
    | .ok b =>
      match anyNotScalar vs with
      | .error e => .error e
      | .ok rest => .ok (b || rest)

/-- `TimeConstraint.vectorize`: the source guards
`np.any(min_vals is None)` / `np.any(max_vals is None)` compare the
Python list objects themselves to `None`, which is always false, so the
mixed-scalar/`None` branches are dead code and are modelled away; the
scalar checks then run on every collected limit.  On success the class
is constructed from the collected limit lists, modelled by returning
them. -/
def timeConstraintVectorize (min_vals max_vals : List (Option TimeLimit)) :
    Except PyErr (List (Option TimeLimit) × List (Option TimeLimit)) :=
  match anyNotScalar min_vals with
  | .error e => .error e
  | .ok true => .error (.valueError "Not all min limits are scalar")
  | .ok false =>
    match anyNotScalar max_vals with
    | .error e => .error e
    | .ok true => .error (.valueError "Not all max limits are scalar")
    | .ok false => .ok (min_vals, max_vals)

/-! ### Helper lemmas -/

theorem matGet_replicate (row : List α) (n i j : ℕ) (hi : i < n) :
    matGet (List.replicate n row) i j = row[j]? := by
  simp [matGet, List.getElem?_replicate, hi]

theorem matGet_gridMap (f : ℕ → ℚ → α) (targets : List ℕ) (times : List ℚ)
    (i j : ℕ) (g : ℕ) (t : ℚ) (hi : targets[i]? = some g)
    (hj : times[j]? = some t) :
    matGet (gridMap f targets times) i j = some (f g t) := by
  simp [gridMap, matGet, List.getElem?_map, hi, hj]

theorem gridMap_shape (f : ℕ → ℚ → α) (targets : List ℕ) (times : List ℚ) :
    matShape (gridMap f targets times) targets.length times.length := by
  refine ⟨by simp [gridMap], ?_⟩
  intro row hrow
  simp only [gridMap, List.mem_map] at hrow
  obtain ⟨g, -, rfl⟩ := hrow
  simp

theorem replicate_shape (row : List α) (n : ℕ) :
    matShape (List.replicate n row) n row.length := by
  refine ⟨by simp, ?_⟩
  intro r hr
  rw [List.eq_of_mem_replicate hr]

theorem zipWith_map_same (f : α → β) (g : α → γ) (h : β → γ → δ)
    (l : List α) :
    List.zipWith h (l.map f) (l.map g) = l.map (fun x => h (f x) (g x)) := by
  induction l with
  | nil => rfl
  | cons a l ih => simp [ih]

theorem mem_zipWith {f : α → β → γ} :
    ∀ {a : List α} {b : List β} {c : γ},
      c ∈ List.zipWith f a b → ∃ x ∈ a, ∃ y ∈ b, c = f x y := by
  intro a
  induction a with
  | nil => intro b c h; simp at h
  | cons x xs ih =>
    intro b c h
    cases b with
    | nil => simp at h
    | cons y ys =>
      simp only [List.zipWith_cons_cons, List.mem_cons] at h
      rcases h with h | h
      · exact ⟨x, by simp, y, by simp, h⟩
      · obtain ⟨x', hx', y', hy', rfl⟩ := ih h
        exact ⟨x', by simp [hx'], y', by simp [hy'], rfl⟩

theorem matAnd_rows (a b : BoolMat) (k : ℕ)
    (ha : ∀ r ∈ a, r.length = k) (hb : ∀ r ∈ b, r.length = k) :
    ∀ r ∈ matAnd a b, r.length = k := by
  intro r hr
  obtain ⟨ra, hra, rb, hrb, rfl⟩ := mem_zipWith hr
  simp [List.length_zipWith, ha ra hra, hb rb hrb]

theorem foldl_matAnd_rows (ms : List BoolMat) (k : ℕ) :
    ∀ m : BoolMat, (∀ r ∈ m, r.length = k) →
      (∀ mat ∈ ms, ∀ r ∈ mat, r.length = k) →
      ∀ r ∈ ms.foldl matAnd m, r.length = k := by
  induction ms with
  | nil => intro m hm _; simpa using hm
  | cons b bs ih =>
    intro m hm hms
    simp only [List.foldl_cons]
    exact ih (matAnd m b) (matAnd_rows m b k hm (hms b (by simp)))
      (fun mat hmat => hms mat (by simp [hmat]))

/-! ### Claim theorems -/

/-- Claim C3: `TimeConstraint` marks a sampled instant observable iff it
lies strictly between the bounds (`min < t < max`); an instant exactly
equal to either bound is not observable; an unset bound is replaced by
the `1950-01-01` / `2120-01-01` sentinel instants. -/
theorem timeConstraint_strict_bounds (minT maxT : Option ℚ)
    (targets : List ℕ) (times : List ℚ) (i j : ℕ) (t : ℚ)
    (hi : i < targets.length) (hj : times[j]? = some t) :
    matGet (timeConstraintCompute minT maxT targets times) i j
      = some (decide (minT.getD jd1950 < t) && decide (t < maxT.getD jd2120))
    ∧ (t = minT.getD jd1950 →
        matGet (timeConstraintCompute minT maxT targets times) i j
          = some false)
    ∧ (t = maxT.getD jd2120 →
        matGet (timeConstraintCompute minT maxT targets times) i j
          = some false) := by
  have h1 : matGet (timeConstraintCompute minT maxT targets times) i j
      = some (decide (minT.getD jd1950 < t) && decide (t < maxT.getD jd2120)) := by
    unfold timeConstraintCompute matAnd
    rw [List.zipWith_replicate, min_self, zipWith_map_same,
      matGet_replicate _ _ _ _ hi, List.getElem?_map, hj]
    rfl
  refine ⟨h1, fun ht => ?_, fun ht => ?_⟩
  · rw [h1]; simp [← ht]
  · rw [h1]; simp [← ht]

/-- Witness for C3: with bounds 5 and 7, the instant 5 (equal to `min`)
is not observable, while 6 is. -/
theorem timeConstraint_strict_bounds_witness :
    matGet (timeConstraintCompute (some 5) (some 7) [0] [5, 6]) 0 0
      = some false
    ∧ matGet (timeConstraintCompute (some 5) (some 7) [0] [5, 6]) 0 1
      = some true := by
  constructor
  · exact (timeConstraint_strict_bounds (some 5) (some 7) [0] [5, 6] 0 0 5
      (by decide) (by decide)).2.1 rfl
  · have h := (timeConstraint_strict_bounds (some 5) (some 7) [0] [5, 6] 0 1 6
      (by decide) (by decide)).1
    rw [h]
    norm_num

/-- Claim C4: `LocalTimeConstraint` with local times-of-day measured in
seconds: a same-day window (`min < max`) is the inclusive interval
`min ≤ t ≤ max`; a midnight-straddling window (`min ≥ max`) is
`t ≥ min` or `t ≤ max`.  In particular `min` 23:50 (85800 s) and `max`
04:08 (14880 s) mark 00:30 (1800 s) observable and 12:00 (43200 s) not
observable. -/
theorem localTime_window_semantics (minT maxT : ℚ) (targets : List ℕ)
    (localTimes : List ℚ) (i j : ℕ) (t : ℚ)
    (hi : i < targets.length) (hj : localTimes[j]? = some t) :
    (minT < maxT →
      matGet (localTimeCompute minT maxT targets localTimes) i j
        = some (decide (minT ≤ t) && decide (t ≤ maxT)))
    ∧ (maxT ≤ minT →
      matGet (localTimeCompute minT maxT targets localTimes) i j
        = some (decide (t ≥ minT) || decide (t ≤ maxT)))
    ∧ matGet (localTimeCompute 85800 14880 [0] [1800]) 0 0 = some true
    ∧ matGet (localTimeCompute 85800 14880 [0] [43200]) 0 0 = some false := by
  have key : matGet (localTimeCompute minT maxT targets localTimes) i j
      = some (if minT < maxT then decide (minT ≤ t) && decide (t ≤ maxT)
          else decide (t ≥ minT) || decide (t ≤ maxT)) := by
    unfold localTimeCompute
    rw [matGet_replicate _ _ _ _ hi, List.getElem?_map, hj]
    rfl
  refine ⟨fun hlt => ?_, fun hge => ?_, ?_, ?_⟩
  · rw [key, if_pos hlt]
  · rw [key, if_neg (not_lt.mpr hge)]
  · norm_num [localTimeCompute, matGet]
  · norm_num [localTimeCompute, matGet]

/-- Witness for C4 at a concrete same-day and straddling window. -/
theorem localTime_window_semantics_witness :
    matGet (localTimeCompute 10 20 [0] [15]) 0 0 = some true
    ∧ matGet (localTimeCompute 20 10 [0] [15]) 0 0 = some false := by
  constructor
  · have h := (localTime_window_semantics 10 20 [0] [15] 0 0 15
      (by decide) (by decide)).1 (by norm_num)
    rw [h]; norm_num
  · have h := (localTime_window_semantics 20 10 [0] [15] 0 0 15
      (by decide) (by decide)).2.1 (by norm_num)
    rw [h]; norm_num

/-- Claim C9: a `MoonIlluminationConstraint` constructed with both
bounds unset carries the sentinel pair `(-0.5, 1.5)`, which matches none
of the three branch guards of `compute_constraint` (`min < 0 and
max < 1.5`; `max > 1.0 and min > -0.5`; `min > -0.5 and max < 1.5`), so
every evaluation raises `ValueError`: the default-constructed constraint
is unusable, not permissive. -/
theorem moonIllumination_default_unusable (moonAlt illum : ℚ → ℚ)
    (targets : List ℕ) (times : List ℚ) :
    moonIlluminationInit none none = (-(1/2), 3/2)
    ∧ moonIlluminationCompute (moonIlluminationInit none none).1
        (moonIlluminationInit none none).2 moonAlt illum targets times
      = .error "No max and/or min specified in MoonSeparationConstraint." := by
  constructor
  · rfl
  · norm_num [moonIlluminationCompute, moonIlluminationInit]

/-- Counterexample to Claim C2: the constructor accepts the `bright`
preset bounds `min = 0.65`, `max` unset (sentinel 1.5); with the Moon
below the horizon (altitude -10 < 0) and illumination 0.9 inside the
bounds, the branch `max > 1.0 and min > -0.5` AND-combines with the
moon-up mask, so the pair is NOT satisfied, contradicting "moon-down
always passes for every choice of bounds". -/
theorem moonIllumination_moon_down_counterexample :
    moonIlluminationCompute (moonIlluminationInit (some (13/20)) none).1
        (moonIlluminationInit (some (13/20)) none).2
        (fun _ => -10) (fun _ => 9/10) [0] [0]
      = .ok [[false]]
    ∧ ((-10 : ℚ) < 0) := by
  constructor
  · norm_num [moonIlluminationCompute, moonIlluminationInit]
  · norm_num

/-- Claim C2 as amended: a moon-down (lunar altitude < 0) time is always
satisfied only when the constraint's stored `min` is below 0 (in
particular the unset sentinel -0.5) and its `max` is below the 1.5
sentinel, selecting the `illum ≤ max OR moon down` branch; whenever the
stored `min` is a real lower bound (`min ≥ 0`), a moon-down time is
never satisfied, whatever the illumination. -/
theorem moonIllumination_moon_down_branches (minI maxI : ℚ)
    (moonAlt illum : ℚ → ℚ) (targets : List ℕ) (times : List ℚ)
    (j : ℕ) (t : ℚ) (hj : times[j]? = some t) (hdown : moonAlt t < 0) :
    (minI < 0 → maxI < 3/2 →
      ∃ m, moonIlluminationCompute minI maxI moonAlt illum targets times
          = .ok m
        ∧ matGet m 0 j = some true)
    ∧ (0 ≤ minI →
      ∃ m, moonIlluminationCompute minI maxI moonAlt illum targets times
          = .ok m
        ∧ matGet m 0 j = some false) := by
  constructor
  · intro h1 h2
    refine ⟨_, by rw [moonIlluminationCompute, if_pos ⟨h1, h2⟩], ?_⟩
    simp [matGet, List.getElem?_map, hj, hdown]
  · intro hmin
    have hnot1 : ¬ (minI < 0 ∧ maxI < 3/2) := fun h => absurd hmin (not_le.mpr h.1)
    have hminhalf : minI > -(1/2) := lt_of_lt_of_le (by norm_num) hmin
    by_cases h2 : maxI > 1 ∧ minI > -(1/2)
    · refine ⟨_, by rw [moonIlluminationCompute, if_neg hnot1, if_pos h2], ?_⟩
      simp [matGet, List.getElem?_map, hj, hdown]
    · have h3 : minI > -(1/2) ∧ maxI < 3/2 := by
        refine ⟨hminhalf, ?_⟩
        rcases not_and_or.mp h2 with h | h
        · exact lt_of_le_of_lt (not_lt.mp h) (by norm_num)
        · exact absurd hminhalf h
      refine ⟨_, by rw [moonIlluminationCompute, if_neg hnot1, if_neg h2, if_pos h3], ?_⟩
      simp [matGet, List.getElem?_map, hj, hdown]

/-- Witness for the amended C2: moon down at altitude -10; with the
`dark` preset (min sentinel -0.5, max 0.25) the time passes despite
illumination 0.9 being out of bounds, while with `min = 0.65` it fails
despite illumination 0.9 being in bounds. -/
theorem moonIllumination_moon_down_branches_witness :
    (∃ m, moonIlluminationCompute (-(1/2)) (1/4) (fun _ => -10)
        (fun _ => 9/10) [0] [0] = .ok m ∧ matGet m 0 0 = some true)
    ∧ (∃ m, moonIlluminationCompute (13/20) (3/2) (fun _ => -10)
        (fun _ => 9/10) [0] [0] = .ok m ∧ matGet m 0 0 = some false) := by
  constructor
  · exact (moonIllumination_moon_down_branches (-(1/2)) (1/4) (fun _ => -10)
      (fun _ => 9/10) [0] [0] 0 0 (by decide) (by norm_num)).1
      (by norm_num) (by norm_num)
  · exact (moonIllumination_moon_down_branches (13/20) (3/2) (fun _ => -10)
      (fun _ => 9/10) [0] [0] 0 0 (by decide) (by norm_num)).2
      (by norm_num)

/-- Counterexample to Claim C10: `LocalTimeConstraint(min=23:59:59,
max=None)` substitutes `max = 23:59:59`, making `min = max`; the
same-day branch then does not apply (`min < max` is false), the
midnight-straddle mask `t ≥ min or t ≤ max` is used, and the instant
23:59:59.5 (86399.5 s, strictly between 23:59:59 and midnight) IS
marked observable, contradicting "not observable for every such
constraint". -/
theorem localTime_sentinel_counterexample :
    localTimeConstraintInit (some 86399) none = .ok (86399, 86399)
    ∧ matGet (localTimeCompute 86399 86399 [0] [172799/2]) 0 0 = some true
    ∧ (86399 : ℚ) < 172799/2 ∧ (172799/2 : ℚ) < 86400 := by
  refine ⟨by decide, ?_, by norm_num, by norm_num⟩
  norm_num [localTimeCompute, matGet]

/-- Claim C10 as amended: an unset `max` is substituted by the fixed
time-of-day 23:59:59 (86399 s) and an unset `min` by 00:00:00, so for
every such constraint whose effective `min` is strictly earlier than
23:59:59 an instant strictly between 23:59:59 and midnight is not
observable despite "None means no limit"; when the supplied `min` is
23:59:59 or later the straddle branch applies instead and such an
instant at or after `min` is observable. -/
theorem localTime_sentinel_semantics (minT : ℚ) (x : ℚ)
    (targets : List ℕ) (localTimes : List ℚ) (i j : ℕ) (t : ℚ)
    (hi : i < targets.length) (hj : localTimes[j]? = some t)
    (hlate : lastSecondOfDay < t) :
    localTimeConstraintInit (some minT) none = .ok (minT, lastSecondOfDay)
    ∧ localTimeConstraintInit none (some x) = .ok (0, x)
    ∧ (minT < lastSecondOfDay →
        matGet (localTimeCompute minT lastSecondOfDay targets localTimes) i j
          = some false)
    ∧ (lastSecondOfDay ≤ minT → minT ≤ t →
        matGet (localTimeCompute minT lastSecondOfDay targets localTimes) i j
          = some true) := by
  refine ⟨by simp [localTimeConstraintInit], by simp [localTimeConstraintInit],
    fun hlt => ?_, fun hge hmt => ?_⟩
  · unfold localTimeCompute
    rw [matGet_replicate _ _ _ _ hi, List.getElem?_map, hj]
    simp [if_pos hlt, not_le.mpr hlate]
  · unfold localTimeCompute
    rw [matGet_replicate _ _ _ _ hi, List.getElem?_map, hj]
    simp [if_neg (not_lt.mpr hge), hmt]

/-- Witness for the amended C10 at 23:59:59.5: not observable when
`min` is 10:00:00 (36000 s), observable when `min` is 23:59:59. -/
theorem localTime_sentinel_semantics_witness :
    matGet (localTimeCompute 36000 lastSecondOfDay [0] [172799/2]) 0 0
      = some false
    ∧ matGet (localTimeCompute 86399 lastSecondOfDay [0] [172799/2]) 0 0
      = some true := by
  constructor
  · exact (localTime_sentinel_semantics 36000 0 [0] [172799/2] 0 0 (172799/2)
      (by decide) rfl (by norm_num [lastSecondOfDay])).2.2.1
      (by norm_num [lastSecondOfDay])
  · exact (localTime_sentinel_semantics 86399 0 [0] [172799/2] 0 0 (172799/2)
      (by decide) rfl (by norm_num [lastSecondOfDay])).2.2.2
      (by norm_num [lastSecondOfDay]) (by norm_num)

/-- Counterexample to Claim C5: in continuous mode the airmass
constraint calls `min_best_rescale(..., less_than_min=0)`, so a
secant-of-zenith value 0 below the default `min = 1` rescales to the
score 0 (the worthless end), not to the "good" score-1 end the claim
asserts. -/
theorem airmassFloat_below_min_counterexample :
    airmassComputeFloat none (some (9/4)) (fun _ _ => 0) [0] [0]
      = .ok [[0]]
    ∧ ((0 : ℚ) < 1) ∧ min_best_rescale 0 1 (9/4) 0 ≠ 1 := by
  refine ⟨?_, by norm_num, ?_⟩
  · norm_num [airmassComputeFloat, gridMap, min_best_rescale]
  · norm_num [min_best_rescale]

/-- Claim C5 as amended: continuous-mode airmass evaluation fails when
`max` is unset; otherwise every entry is
`min_best_rescale(secz, min, max, less_than_min=0)` with `min`
defaulting to 1 when unset; the rescale sends `min` to 1 and `max` to 0
(low airmass scores high), and values below `min` are discarded to the
score 0, not to the score-1 end. -/
theorem airmassFloat_rescale_semantics (minO : Option ℚ) (mx : ℚ)
    (secz : ℕ → ℚ → ℚ) (targets : List ℕ) (times : List ℚ)
    (i j g : ℕ) (t : ℚ) (hi : targets[i]? = some g)
    (hj : times[j]? = some t) :
    airmassComputeFloat minO none secz targets times
      = .error "Cannot have a float AirmassConstraint if max is None"
    ∧ (∀ m, airmassComputeFloat minO (some mx) secz targets times = .ok m →
        matGet m i j = some (min_best_rescale (secz g t) (minO.getD 1) mx 0))
    ∧ (minO.getD 1 < mx →
        min_best_rescale (minO.getD 1) (minO.getD 1) mx 0 = 1)
    ∧ (minO.getD 1 < mx → min_best_rescale mx (minO.getD 1) mx 0 = 0)
    ∧ (∀ v, v < minO.getD 1 → min_best_rescale v (minO.getD 1) mx 0 = 0) := by
  refine ⟨rfl, fun m hm => ?_, fun hlt => ?_, fun hlt => ?_, fun v hv => ?_⟩
  · have hm' : m = gridMap (fun g t => min_best_rescale (secz g t)
        (minO.getD 1) mx 0) targets times := by
      simpa [airmassComputeFloat] using hm.symm
    rw [hm', matGet_gridMap _ _ _ _ _ _ _ hi hj]
  · simp only [min_best_rescale]
    rw [if_neg (not_lt.mpr (le_of_lt hlt)), if_neg (lt_irrefl _)]
    exact div_self (sub_ne_zero.mpr (ne_of_lt hlt))
  · simp only [min_best_rescale]
    rw [if_neg (lt_irrefl _), if_neg (not_lt.mpr (le_of_lt hlt))]
    simp
  · simp only [min_best_rescale]
    by_cases hvmx : v > mx
    · rw [if_pos hvmx]
    · rw [if_neg hvmx, if_pos hv]

/-- Witness for the amended C5 at the documented example bounds
(min 1, max 2.25). -/
theorem airmassFloat_rescale_semantics_witness :
    airmassComputeFloat none none (fun _ _ => 0) [0] [0]
      = .error "Cannot have a float AirmassConstraint if max is None"
    ∧ matGet [[(0 : ℚ)]] 0 0 = some (min_best_rescale 0 1 (9/4) 0)
    ∧ min_best_rescale 1 1 (9/4) 0 = 1
    ∧ min_best_rescale (9/4) 1 (9/4) 0 = 0
    ∧ min_best_rescale 0 1 (9/4) 0 = 0 := by
  have h := airmassFloat_rescale_semantics none (9/4) (fun _ _ => 0) [0] [0]
    0 0 0 0 (by decide) (by decide)
  refine ⟨h.1, ?_, h.2.2.1 (by norm_num), h.2.2.2.1 (by norm_num),
    h.2.2.2.2 0 (by norm_num)⟩
  have h2 := h.2.1 [[(0 : ℚ)]]
    (by norm_num [airmassComputeFloat, gridMap, min_best_rescale])
  simpa using h2

/-- Counterexample to Claim C1: a scalar-limit
`MoonIlluminationConstraint` (here the `dark` preset, `min` unset,
`max = 0.25`) evaluated on 2 targets and 1 time returns the single-row
matrix `[[true]]`, of shape (1, 1), not (2, 1): the `(ntimes,)`
illumination mask broadcasts against the `(1, 1)` scalar limits instead
of being tiled across the target dimension. -/
theorem moonIllumination_shape_counterexample :
    moonIlluminationCompute (moonIlluminationInit none (some (1/4))).1
        (moonIlluminationInit none (some (1/4))).2
        (fun _ => -10) (fun _ => 1/2) [0, 1] [7]
      = .ok [[true]]
    ∧ ¬ matShape ([[true]] : BoolMat) 2 1 := by
  constructor
  · norm_num [moonIlluminationCompute, moonIlluminationInit]
  · intro h
    simpa using h.1

/-- Claim C1 as amended: on N targets and M times, the Altitude,
Airmass, AtNight, SunSeparation, MoonSeparation, LocalTime and
TimeWindow constraints all return an (N, M) matrix, the per-time-only
quantities (solar altitude, local time, absolute time) being explicitly
tiled across the target dimension; MoonIllumination with scalar limits
instead returns a single-row (1, M) matrix, shaped by limit
broadcasting rather than by the target count. -/
theorem constraint_matrix_shapes (minA maxA minS maxS minM maxM
    maxSolarAlt minL maxL minI maxI : ℚ) (minO maxO minTC maxTC : Option ℚ)
    (alt secz sunsep moonsep : ℕ → ℚ → ℚ) (sunAlt moonAlt illum : ℚ → ℚ)
    (targets : List ℕ) (times : List ℚ) :
    matShape (altitudeCompute minA maxA alt targets times)
      targets.length times.length
    ∧ (∀ m, airmassComputeBool minO maxO secz targets times = .ok m →
        matShape m targets.length times.length)
    ∧ matShape (atNightCompute maxSolarAlt sunAlt targets times)
      targets.length times.length
    ∧ matShape (sunSeparationCompute minS maxS sunsep targets times)
      targets.length times.length
    ∧ matShape (moonSeparationCompute minM maxM moonsep targets times)
      targets.length times.length
    ∧ (∀ m, moonIlluminationCompute minI maxI moonAlt illum targets times
          = .ok m → matShape m 1 times.length)
    ∧ matShape (localTimeCompute minL maxL targets times)
      targets.length times.length
    ∧ matShape (timeConstraintCompute minTC maxTC targets times)
      targets.length times.length := by
  have hrow : ∀ (f : ℚ → Bool), matShape
      (List.replicate targets.length (times.map f))
      targets.length times.length := by
    intro f
    have h := replicate_shape (times.map f) targets.length
    simpa using h
  refine ⟨gridMap_shape _ _ _, fun m hm => ?_, ?_, gridMap_shape _ _ _,
    gridMap_shape _ _ _, fun m hm => ?_, ?_, ?_⟩
  · cases minO <;> cases maxO <;>
      simp only [airmassComputeBool, Except.ok.injEq] at hm
    · exact absurd hm (by simp)
    · rw [← hm]; exact gridMap_shape _ _ _
    · rw [← hm]; exact gridMap_shape _ _ _
    · rw [← hm]; exact gridMap_shape _ _ _
  · refine ⟨by simp [atNightCompute, solarAltitudesBroadcast], ?_⟩
    intro r hr
    simp only [atNightCompute, solarAltitudesBroadcast, List.mem_map] at hr
    obtain ⟨r', hr', rfl⟩ := hr
    rw [List.eq_of_mem_replicate hr']
    simp
  · have hone : ∀ row : List Bool, row.length = times.length →
        matShape [row] 1 times.length := by
      intro row hlen
      refine ⟨rfl, ?_⟩
      intro r hr
      simp only [List.mem_singleton] at hr
      rw [hr, hlen]
    unfold moonIlluminationCompute at hm
    split_ifs at hm with h1 h2 h3
    · simp only [Except.ok.injEq] at hm
      rw [← hm]; exact hone _ (by simp)
    · simp only [Except.ok.injEq] at hm
      rw [← hm]; exact hone _ (by simp)
    · simp only [Except.ok.injEq] at hm
      rw [← hm]; exact hone _ (by simp)
  · unfold localTimeCompute
    exact hrow _
  · unfold timeConstraintCompute matAnd
    rw [List.zipWith_replicate, min_self, zipWith_map_same]
    exact hrow _

/-- Witness for the amended C1: one target and two times for the
hypothesis-free kinds, plus the two `Except`-valued kinds with their
success hypotheses discharged. -/
theorem constraint_matrix_shapes_witness :
    matShape (altitudeCompute 0 1 (fun _ _ => 0) [5] [1, 2]) 1 2
    ∧ matShape ([[false, false]] : BoolMat) 1 2
    ∧ matShape ([[true, true]] : BoolMat) 1 2 := by
  have h := constraint_matrix_shapes 0 1 0 1 0 1 0 0 1 (-(1/2)) (1/4)
    (some 1) (some 2) none none (fun _ _ => 0) (fun _ _ => 0)
    (fun _ _ => 0) (fun _ _ => 0) (fun _ => 0) (fun _ => -10) (fun _ => 0)
    [5] [1, 2]
  refine ⟨h.1, ?_, ?_⟩
  · exact h.2.1 [[false, false]]
      (by norm_num [airmassComputeBool, gridMap])
  · exact h.2.2.2.2.2.1 [[true, true]]
      (by norm_num [moonIlluminationCompute])

theorem anyNotScalar_error_of_none :
    ∀ vs : List (Option TimeLimit), (∃ v ∈ vs, v = none) →
      ∃ e, anyNotScalar vs = .error e := by
  intro vs
  induction vs with
  | nil => rintro ⟨w, hw, -⟩; simp at hw
  | cons v vs ih =>
    rintro ⟨w, hw, hwn⟩
    rcases List.mem_cons.mp hw with rfl | hmem
    · rw [hwn]
      exact ⟨PyErr.attributeError "NoneType object has no attribute isscalar",
        by simp [anyNotScalar, notIsScalar]⟩
    · cases v with
      | none =>
        exact ⟨PyErr.attributeError "NoneType object has no attribute isscalar",
          by simp [anyNotScalar, notIsScalar]⟩
      | some tl =>
        obtain ⟨e, he⟩ := ih ⟨w, hmem, hwn⟩
        cases tl with
        | inl q => exact ⟨e, by simp [anyNotScalar, notIsScalar, he]⟩
        | inr l => exact ⟨e, by simp [anyNotScalar, notIsScalar, he]⟩

theorem anyNotScalar_ok_false :
    ∀ vs : List (Option TimeLimit), anyNotScalar vs = .ok false →
      ∀ v ∈ vs, ∃ q, v = some (.inl q) := by
  intro vs
  induction vs with
  | nil => intro _ v hv; simp at hv
  | cons v vs ih =>
    intro h w hw
    cases v with
    | none => simp [anyNotScalar, notIsScalar] at h
    | some tl =>
      cases tl with
      | inl q =>
        simp only [anyNotScalar, notIsScalar] at h
        cases hrec : anyNotScalar vs with
        | error e => rw [hrec] at h; simp at h
        | ok rest =>
          rw [hrec] at h
          simp only [Bool.false_or, Except.ok.injEq] at h
          rcases List.mem_cons.mp hw with rfl | hmem
          · exact ⟨q, rfl⟩
          · exact ih (by rw [hrec, h]) w hmem
      | inr l =>
        simp only [anyNotScalar, notIsScalar] at h
        cases hrec : anyNotScalar vs with
        | error e => rw [hrec] at h; simp at h
        | ok rest => rw [hrec] at h; simp at h

theorem timeConstraintVectorize_ok (min_vals max_vals : List (Option TimeLimit))
    (r : List (Option TimeLimit) × List (Option TimeLimit))
    (h : timeConstraintVectorize min_vals max_vals = .ok r) :
    anyNotScalar min_vals = .ok false ∧ anyNotScalar max_vals = .ok false := by
  unfold timeConstraintVectorize at h
  cases h1 : anyNotScalar min_vals with
  | error e => rw [h1] at h; simp at h
  | ok b1 =>
    rw [h1] at h
    cases b1 with
    | true => simp at h
    | false =>
      cases h2 : anyNotScalar max_vals with
      | error e => rw [h2] at h; simp at h
      | ok b2 =>
        rw [h2] at h
        cases b2 with
        | true => simp at h
        | false => exact ⟨rfl, rfl⟩

/-- Claim C7: merging a list of same-type constraint instances fails on
a mixture of set and unset limits and fails on any non-scalar
(already-vectorized) limit, and a merge can succeed only in the
all-set-scalar or all-unset cases: for the generic
`_get_limit_values` path, and likewise for `TimeConstraint.vectorize`
(whose dead `is None` guards make every unset limit surface as an
`AttributeError` instead, so a success still implies every limit was a
set scalar). -/
theorem vectorize_limit_merge_failures (vals : List (Option LimitVal))
    (min_vals max_vals : List (Option TimeLimit)) :
    ((∃ v ∈ vals, v = none) → (∃ v ∈ vals, v ≠ none) →
      get_limit_values vals = .error
        "Cannot vectorize constraints with a mixture of scalar and NoneType limits")
    ∧ ((∃ l, some l ∈ vals ∧ l.length ≠ 1) →
        ∃ msg, get_limit_values vals = .error msg)
    ∧ (vals ≠ [] → (∀ v ∈ vals, v = none) → get_limit_values vals = .ok none)
    ∧ (∀ r, get_limit_values vals = .ok r →
        (∀ v ∈ vals, ∃ q, v = some [q]) ∨ (∀ v ∈ vals, v = none))
    ∧ (((∃ v ∈ min_vals, v = none ∨ ∃ l, v = some (.inr l))
        ∨ (∃ v ∈ max_vals, v = none ∨ ∃ l, v = some (.inr l))) →
        ∃ e, timeConstraintVectorize min_vals max_vals = .error e)
    ∧ (∀ r, timeConstraintVectorize min_vals max_vals = .ok r →
        (∀ v ∈ min_vals, ∃ q, v = some (.inl q))
        ∧ (∀ v ∈ max_vals, ∃ q, v = some (.inl q))) := by
  refine ⟨fun h1 h2 => ?_, fun hns => ?_, fun hvne hall => ?_, fun r hr => ?_,
    fun hbad => ?_, fun r hr => ?_⟩
  · obtain ⟨a, ha, han⟩ := h1
    obtain ⟨b, hb, hbn⟩ := h2
    have hany : vals.any (fun v => v = none) = true := by
      simp only [List.any_eq_true, decide_eq_true_eq]
      exact ⟨a, ha, han⟩
    have hallf : vals.all (fun v => v = none) = false := by
      rw [Bool.eq_false_iff]
      simp only [ne_eq, List.all_eq_true, decide_eq_true_eq, not_forall]
      exact ⟨b, hb, hbn⟩
    simp [get_limit_values, hany, hallf]
  · obtain ⟨l, hl, hlen⟩ := hns
    by_cases hany : vals.any (fun v => v = none) = true
    · have hallf : vals.all (fun v => v = none) = false := by
        rw [Bool.eq_false_iff]
        simp only [ne_eq, List.all_eq_true, decide_eq_true_eq, not_forall]
        exact ⟨some l, hl, by simp⟩
      exact
        ⟨"Cannot vectorize constraints with a mixture of scalar and NoneType limits",
          by simp [get_limit_values, hany, hallf]⟩
    · have hscal : vals.all (fun v => (v.getD []).length = 1) = false := by
        rw [Bool.eq_false_iff]
        simp only [ne_eq, List.all_eq_true, decide_eq_true_eq, not_forall]
        exact ⟨some l, hl, by simpa using hlen⟩
      rw [Bool.not_eq_true] at hany
      exact ⟨"Not all limits have scalar values",
        by simp [get_limit_values, hany, hscal]⟩
  · have hany : vals.any (fun v => v = none) = true := by
      cases vals with
      | nil => exact absurd rfl hvne
      | cons v vs =>
        simp only [List.any_eq_true, decide_eq_true_eq]
        exact ⟨v, by simp, hall v (by simp)⟩
    have hallt : vals.all (fun v => v = none) = true := by
      simp only [List.all_eq_true, decide_eq_true_eq]
      exact hall
    simp [get_limit_values, hany, hallt]
  · unfold get_limit_values at hr
    by_cases hany : vals.any (fun v => v = none) = true
    · rw [if_pos hany] at hr
      by_cases hallt : vals.all (fun v => v = none) = true
      · refine Or.inr ?_
        simpa only [List.all_eq_true, decide_eq_true_eq] using hallt
      · rw [if_neg hallt] at hr
        simp at hr
    · rw [Bool.not_eq_true] at hany
      rw [if_neg (by simp [hany])] at hr
      by_cases hscal : vals.all (fun v => (v.getD []).length = 1) = true
      · refine Or.inl ?_
        intro v hv
        have hvn : ¬ v = none := by
          intro hvn
          have hx : vals.any (fun v => v = none) = true :=
            List.any_eq_true.mpr ⟨v, hv, by rw [hvn]; simp⟩
          rw [hany] at hx
          exact Bool.false_ne_true hx
        obtain ⟨l, rfl⟩ := Option.ne_none_iff_exists'.mp hvn
        have hlen := List.all_eq_true.mp hscal _ hv
        simp only [Option.getD_some, decide_eq_true_eq] at hlen
        obtain ⟨q, rfl⟩ := List.length_eq_one.mp hlen
        exact ⟨q, rfl⟩
      · rw [if_neg hscal] at hr
        simp at hr
  · cases hres : timeConstraintVectorize min_vals max_vals with
    | error e => exact ⟨e, rfl⟩
    | ok r =>
      exfalso
      obtain ⟨hmin, hmax⟩ := timeConstraintVectorize_ok _ _ _ hres
      rcases hbad with ⟨v, hv, hbadv⟩ | ⟨v, hv, hbadv⟩
      · obtain ⟨q, rfl⟩ := anyNotScalar_ok_false _ hmin v hv
        rcases hbadv with h | ⟨l, h⟩ <;> simp at h
      · obtain ⟨q, rfl⟩ := anyNotScalar_ok_false _ hmax v hv
        rcases hbadv with h | ⟨l, h⟩ <;> simp at h
  · obtain ⟨hmin, hmax⟩ := timeConstraintVectorize_ok _ _ _ hr
    exact ⟨anyNotScalar_ok_false _ hmin, anyNotScalar_ok_false _ hmax⟩

/-- Witness for C7: a mixed merge and a non-scalar merge fail, an
all-unset generic merge succeeds as `None`, a successful generic merge
had all scalar limits, a `TimeConstraint` merge with an unset limit
fails, and a successful `TimeConstraint` merge had all scalar limits. -/
theorem vectorize_limit_merge_failures_witness :
    get_limit_values [some [1], none] = .error
      "Cannot vectorize constraints with a mixture of scalar and NoneType limits"
    ∧ (∃ msg, get_limit_values [some [1], some [2, 3]] = .error msg)
    ∧ get_limit_values [none, none] = .ok none
    ∧ ((∀ v ∈ ([some [1], some [2]] : List (Option LimitVal)),
          ∃ q, v = some [q])
        ∨ (∀ v ∈ ([some [1], some [2]] : List (Option LimitVal)), v = none))
    ∧ (∃ e, timeConstraintVectorize [some (Sum.inl 1), none]
        [some (Sum.inl 2)] = .error e)
    ∧ ((∀ v ∈ ([some (Sum.inl 1)] : List (Option TimeLimit)),
          ∃ q, v = some (Sum.inl q))
        ∧ (∀ v ∈ ([some (Sum.inl 2)] : List (Option TimeLimit)),
          ∃ q, v = some (Sum.inl q))) := by
  refine ⟨?_, ?_, ?_, ?_, ?_, ?_⟩
  · exact (vectorize_limit_merge_failures [some [1], none] [] []).1
      ⟨none, by simp, rfl⟩ ⟨some [1], by simp, by simp⟩
  · exact (vectorize_limit_merge_failures [some [1], some [2, 3]] [] []).2.1
      ⟨[2, 3], by simp, by simp⟩
  · exact (vectorize_limit_merge_failures [none, none] [] []).2.2.1
      (by simp) (by simp)
  · exact (vectorize_limit_merge_failures [some [1], some [2]] [] []).2.2.2.1
      (some [1, 2]) (by decide)
  · exact (vectorize_limit_merge_failures []
      [some (Sum.inl 1), none] [some (Sum.inl 2)]).2.2.2.2.1
      (Or.inl ⟨none, by simp, Or.inl rfl⟩)
  · exact (vectorize_limit_merge_failures []
      [some (Sum.inl 1)] [some (Sum.inl 2)]).2.2.2.2.2
      ([some (Sum.inl 1)], [some (Sum.inl 2)]) (by decide)

theorem get_altaz_eval
    (altazFn : ℚ → List ℚ → List ℕ → Except String (List (List ℚ)))
    (times : List ℚ) (targets : List ℕ) (fz : Bool) (observer : Observer) :
    get_altaz altazFn times targets fz observer =
      match lookupKey observer.altaz_cache (AAKey.tgts times targets) with
      | some v => (.ok v, observer)
      | none =>
        match altazFn (if fz then 0 else observer.pressure) times targets with
        | .ok grid =>
            (.ok (AAVal.altaz times grid),
             { observer with altaz_cache :=
                (AAKey.tgts times targets, AAVal.altaz times grid)
                  :: observer.altaz_cache })
        | .error e => (.error e, observer) := by
  unfold get_altaz
  cases hl : lookupKey observer.altaz_cache (AAKey.tgts times targets) with
  | some v => simp [hl]
  | none =>
    cases fz with
    | false =>
      cases hf : altazFn observer.pressure times targets with
      | ok grid => simp [hl, hf]
      | error e => simp [hl, hf]
    | true =>
      cases hf : altazFn 0 times targets with
      | ok grid => simp [hl, hf]
      | error e => simp [hl, hf]

theorem get_solar_altitudes_eval
    (sunAltFn : ℚ → List ℚ → Except String (List ℚ))
    (fp : Bool) (times : List ℚ) (ntargets : ℕ) (observer : Observer) :
    get_solar_altitudes sunAltFn fp times ntargets observer =
      match lookupKey observer.altaz_cache (AAKey.sun times) with
      | some (AAVal.altitude _ alts) =>
          (.ok (solarAltitudesBroadcast alts ntargets), observer)
      | some (AAVal.altaz _ _) => (.error "KeyError: altitude", observer)
      | none =>
        match sunAltFn (if fp then 0 else observer.pressure) times with
        | .ok alts =>
            (.ok (solarAltitudesBroadcast alts ntargets),
             { observer with altaz_cache :=
                (AAKey.sun times, AAVal.altitude times alts)
                  :: observer.altaz_cache })
        | .error e => (.error e, observer) := by
  unfold get_solar_altitudes
  cases hl : lookupKey observer.altaz_cache (AAKey.sun times) with
  | some v => cases v <;> simp [hl]
  | none =>
    cases fp with
    | false =>
      cases hf : sunAltFn observer.pressure times with
      | ok alts => simp [hl, hf]
      | error e => simp [hl, hf]
    | true =>
      cases hf : sunAltFn 0 times with
      | ok alts => simp [hl, hf]
      | error e => simp [hl, hf]

/-- Claim C8: the zero-pressure override in the cache helpers and in
`AtNightConstraint._get_solar_altitudes` is scoped: on every exit path
(cache hit, successful computation, raising computation) the returned
observer carries the original pressure; the only other field ever
modified is the attached cache, which is at most extended by the one
new entry; and on a raising ephemeris computation the observer is
returned entirely unchanged. -/
theorem zero_pressure_scoped_restore
    (altazFn : ℚ → List ℚ → List ℕ → Except String (List (List ℚ)))
    (sunAltFn : ℚ → List ℚ → Except String (List ℚ))
    (times : List ℚ) (targets : List ℕ) (fz fp : Bool) (ntargets : ℕ)
    (observer : Observer) :
    ((get_altaz altazFn times targets fz observer).2.pressure
        = observer.pressure
      ∧ (get_altaz altazFn times targets fz observer).2.timezone
        = observer.timezone
      ∧ ((get_altaz altazFn times targets fz observer).2.altaz_cache
          = observer.altaz_cache
        ∨ ∃ entry,
            (get_altaz altazFn times targets fz observer).2.altaz_cache
              = entry :: observer.altaz_cache)
      ∧ ∀ e, (get_altaz altazFn times targets fz observer).1 = .error e →
          (get_altaz altazFn times targets fz observer).2 = observer)
    ∧ ((get_solar_altitudes sunAltFn fp times ntargets observer).2.pressure
        = observer.pressure
      ∧ (get_solar_altitudes sunAltFn fp times ntargets observer).2.timezone
        = observer.timezone
      ∧ ((get_solar_altitudes sunAltFn fp times ntargets
            observer).2.altaz_cache = observer.altaz_cache
        ∨ ∃ entry, (get_solar_altitudes sunAltFn fp times ntargets
            observer).2.altaz_cache = entry :: observer.altaz_cache)
      ∧ ∀ e, (get_solar_altitudes sunAltFn fp times ntargets observer).1
            = .error e →
          (get_solar_altitudes sunAltFn fp times ntargets observer).2
            = observer) := by
  constructor
  · rw [get_altaz_eval]
    cases lookupKey observer.altaz_cache (AAKey.tgts times targets) with
    | some v => exact ⟨rfl, rfl, Or.inl rfl, fun e he => by simp at he⟩
    | none =>
      cases altazFn (if fz then 0 else observer.pressure) times targets with
      | ok grid => exact ⟨rfl, rfl, Or.inr ⟨_, rfl⟩, fun e he => by simp at he⟩
      | error e => exact ⟨rfl, rfl, Or.inl rfl, fun e he => rfl⟩
  · rw [get_solar_altitudes_eval]
    cases lookupKey observer.altaz_cache (AAKey.sun times) with
    | some v =>
      cases v with
      | altaz ts grid => exact ⟨rfl, rfl, Or.inl rfl, fun e he => rfl⟩
      | altitude ts alts =>
        exact ⟨rfl, rfl, Or.inl rfl, fun e he => by simp at he⟩
    | none =>
      cases sunAltFn (if fp then 0 else observer.pressure) times with
      | ok alts => exact ⟨rfl, rfl, Or.inr ⟨_, rfl⟩, fun e he => by simp at he⟩
      | error e => exact ⟨rfl, rfl, Or.inl rfl, fun e he => rfl⟩

/-- Witness for C8: with an empty cache and a raising ephemeris
function, both zero-pressure helpers return the observer unchanged,
pressure included. -/
theorem zero_pressure_scoped_restore_witness :
    (get_altaz (fun _ _ _ => .error "ephemeris failure") [1] [0] true
        (Observer.mk 3 7 [])).2 = Observer.mk 3 7 []
    ∧ (get_solar_altitudes (fun _ _ => .error "ephemeris failure") true [1] 2
        (Observer.mk 3 7 [])).2 = Observer.mk 3 7 [] := by
  have h := zero_pressure_scoped_restore
    (fun _ _ _ => .error "ephemeris failure")
    (fun _ _ => .error "ephemeris failure") [1] [0] true true 2
    (Observer.mk 3 7 [])
  exact ⟨h.1.2.2.2 "ephemeris failure" (by decide),
    h.2.2.2.2 "ephemeris failure" (by decide)⟩

/-- Claim C6: `is_always_observable` is the AND-reduction over the time
axis of the same AND-reduced per-constraint matrix that `is_observable`
OR-reduces, and (with at least one sampled time and well-shaped
constraint matrices) a target that is always observable is in
particular ever observable. -/
theorem always_observable_implies_observable
    (constraints : List ConstraintFn) (targets : List ℕ) (times : List ℚ)
    (htimes : times ≠ [])
    (hshape : ∀ c ∈ constraints,
      matShape (c targets times) targets.length times.length) :
    is_always_observable constraints targets times
      = (logicalAndReduce (applyConstraints constraints targets times)).map
          (fun row => row.all id)
    ∧ ∀ i : ℕ,
        (is_always_observable constraints targets times)[i]? = some true →
        (is_observable constraints targets times)[i]? = some true := by
  refine ⟨rfl, fun i hi => ?_⟩
  cases constraints with
  | nil => simp [is_always_observable, applyConstraints, logicalAndReduce] at hi
  | cons c cs =>
    have hrows : ∀ r ∈ logicalAndReduce
        (applyConstraints (c :: cs) targets times), r.length = times.length := by
      simp only [applyConstraints, List.map_cons, logicalAndReduce]
      refine foldl_matAnd_rows _ _ _ (hshape c (by simp)).2 ?_
      intro mat hmat
      simp only [List.mem_map] at hmat
      obtain ⟨c', hc', rfl⟩ := hmat
      exact (hshape c' (by simp [hc'])).2
    unfold is_always_observable at hi
    simp only [List.getElem?_map] at hi
    cases hrow : (logicalAndReduce
        (applyConstraints (c :: cs) targets times))[i]? with
    | none => rw [hrow] at hi; simp at hi
    | some row =>
      rw [hrow] at hi
      simp only [Option.map_some', Option.some.injEq] at hi
      have hlen := hrows row (List.getElem?_mem hrow)
      have hne : row ≠ [] := by
        intro h
        subst h
        simp only [List.length_nil] at hlen
        exact htimes (List.length_eq_zero.mp hlen.symm)
      unfold is_observable
      simp only [List.getElem?_map]
      rw [hrow]
      simp only [Option.map_some', Option.some.injEq]
      obtain ⟨x, xs, rfl⟩ := List.exists_cons_of_ne_nil hne
      have hx : id x = true := List.all_eq_true.mp hi x (by simp)
      exact List.any_eq_true.mpr ⟨x, by simp, hx⟩

/-- Witness for C6: one always-true constraint on one target and one
time. -/
theorem always_observable_implies_observable_witness :
    (is_observable [fun _ _ => ([[true]] : BoolMat)] [0] [3])[0]? = some true := by
  refine (always_observable_implies_observable
    [fun _ _ => ([[true]] : BoolMat)] [0] [3] (by decide) ?_).2 0 (by decide)
  intro c hc
  simp only [List.mem_singleton] at hc
  subst hc
  exact ⟨rfl, by decide⟩

end Astroplan
